import Mathlib

/-!
Shallow embedding of the program-request lifecycle backend
(src/schemas.py and src/main.py).

Modelling conventions:
* Pydantic models become structures; `Literal[...]` string enums stay
  strings, with membership enforced by an explicit parse function, since
  FastAPI validates the payload before the handler body runs.
* `float` amounts/scores become `Rat`; `datetime` becomes `Int`
  (epoch instants; only their ordering is ever used by the claims).
* The Mongo document store becomes a `Store` of association lists
  (insertion order preserved, ids generated from a counter, rendered as
  strings the way ObjectIds are string ids).  `update_one` updates the
  first record whose key matches, and silently matches nothing when the
  id is absent, exactly as Mongo does.
* Each HTTP operation is `Store → input → Store × Except ApiError resp`:
  a 422 from payload validation is `ApiError.validationError` and leaves
  the store untouched; the handler bodies themselves are translated
  statement by statement from src/main.py.
-/

/-- Error taxonomy of the external contract (spec section 7).  The
embedded reference code can only ever produce `validationError` (from
pydantic payload validation); the other constructors exist so that the
expected outcomes of the claims can be stated and compared. -/
inductive ApiError where
  | validationError
  | notFound
  | invalidTransition
  | preconditionFailed
  | inconsistentReference
  deriving DecidableEq, Repr

/-- schemas.py BudgetItem (already validated: amount >= 0 enforced at parse). -/
structure BudgetItem where
  name : String
  amount : Rat
  deriving DecidableEq, Repr

/-- schemas.py ProgramRequest (validated form). -/
structure ProgramRequest where
  branch_code : String
  program_title : String
  program_type : String
  description : Option String := none
  proposed_date : Option Int := none
  location : Option String := none
  budget : List BudgetItem := []
  requested_by : Option String := none
  status : String := "submitted"
  deriving DecidableEq, Repr

/-- schemas.py Approval (validated form). -/
structure Approval where
  request_id : String
  approved_by : String
  decision : String
  notes : Option String := none
  deriving DecidableEq, Repr

/-- schemas.py Resource (validated form). -/
structure Resource where
  name : String
  type : String
  branch_code : Option String := none
  capacity : Option Int := none
  availability_status : String := "available"
  deriving DecidableEq, Repr

/-- schemas.py Event (validated form). -/
structure Event where
  request_id : Option String := none
  title : String
  branch_code : String
  start_time : Int
  end_time : Int
  location : Option String := none
  resources : List String := []
  status : String := "scheduled"
  deriving DecidableEq, Repr

/-- schemas.py Report (validated form). -/
structure Report where
  request_id : Option String := none
  event_id : Option String := none
  submitted_by : Option String := none
  summary : String
  attendees_count : Option Int := none
  photos : List String := []
  deriving DecidableEq, Repr

/-- schemas.py Evaluation (validated form). -/
structure Evaluation where
  request_id : Option String := none
  event_id : Option String := none
  score : Rat
  methodology : Option String := none
  comments : Option String := none
  deriving DecidableEq, Repr

/-- schemas.py Notification (validated form). -/
structure Notification where
  user_email : Option String := none
  branch_code : Option String := none
  title : String
  message : String
  type : String := "info"
  is_read : Bool := false
  deriving DecidableEq, Repr

/-- The document store: one collection per entity type, each an
association list from string id to record, plus the id counter. -/
structure Store where
  programrequest : List (String × ProgramRequest) := []
  approval : List (String × Approval) := []
  resource : List (String × Resource) := []
  event : List (String × Event) := []
  report : List (String × Report) := []
  evaluation : List (String × Evaluation) := []
  notification : List (String × Notification) := []
  nextId : Nat := 0
  deriving DecidableEq, Repr

/-- Fresh id for the next created document (string id, like an ObjectId). -/
def freshId (s : Store) : String := toString s.nextId

/-- Enum domain of ProgramRequest.status in schemas.py. -/
def requestStatuses : List String :=
  ["submitted", "under_review", "approved", "rejected"]

/-- Enum domain of Program/ProgramRequest.program_type in schemas.py. -/
def programTypes : List String :=
  ["student_activity", "community_service", "volunteering"]

/-- Enum domain of Approval.decision in schemas.py. -/
def decisions : List String := ["approved", "rejected"]

/-- Enum domain of Event.status in schemas.py. -/
def eventStatuses : List String :=
  ["scheduled", "in_progress", "completed", "cancelled"]

/-- Raw (unvalidated) budget item as sent by a client. -/
structure BudgetItemInput where
  name : String
  amount : Rat
  deriving DecidableEq, Repr

/-- Raw ProgramRequest payload: optional fields may be absent; `status`
is absent (`none`) or client-supplied. -/
structure ProgramRequestInput where
  branch_code : String
  program_title : String
  program_type : String
  description : Option String := none
  proposed_date : Option Int := none
  location : Option String := none
  budget : List BudgetItemInput := []
  requested_by : Option String := none
  status : Option String := none
  deriving DecidableEq, Repr

/-- Pydantic validation of one BudgetItem: `amount: float = Field(ge=0)`. -/
def parseBudgetItem (b : BudgetItemInput) : Option BudgetItem :=
  if 0 ≤ b.amount then some ⟨b.name, b.amount⟩ else none

/-- Pydantic validation of the whole budget list: every item must
validate, and the validated items are kept in order. -/
def parseBudget : List BudgetItemInput → Option (List BudgetItem)
  | [] => some []
  | b :: rest =>
    match parseBudgetItem b, parseBudget rest with
    | some x, some xs => some (x :: xs)
    | _, _ => none

/-- Pydantic validation of a ProgramRequest payload: program_type and
status must lie in their Literal domains (status defaulting to
"submitted" when absent), and every budget amount must be >= 0. -/
def parseProgramRequest (i : ProgramRequestInput) : Option ProgramRequest :=
  if programTypes.contains i.program_type then
    match parseBudget i.budget with
    | none => none
    | some budget =>
      if requestStatuses.contains (i.status.getD "submitted") then
        some { branch_code := i.branch_code
               program_title := i.program_title
               program_type := i.program_type
               description := i.description
               proposed_date := i.proposed_date
               location := i.location
               budget := budget
               requested_by := i.requested_by
               status := i.status.getD "submitted" }
      else none
  else none

/-- Raw Approval payload. -/
structure ApprovalInput where
  request_id : String
  approved_by : String
  decision : String
  notes : Option String := none
  deriving DecidableEq, Repr

/-- Pydantic validation of an Approval payload: decision must be in
its Literal domain. -/
def parseApproval (i : ApprovalInput) : Option Approval :=
  if decisions.contains i.decision then
    some ⟨i.request_id, i.approved_by, i.decision, i.notes⟩
  else none

/-- Raw Event payload. -/
structure EventInput where
  request_id : Option String := none
  title : String
  branch_code : String
  start_time : Int
  end_time : Int
  location : Option String := none
  resources : List String := []
  status : Option String := none
  deriving DecidableEq, Repr

/-- Pydantic validation of an Event payload: only the status Literal is
checked (defaulting to "scheduled"); there is no constraint linking
start_time and end_time in schemas.py. -/
def parseEvent (i : EventInput) : Option Event := do
  let st := i.status.getD "scheduled"
  guard (eventStatuses.contains st)
  pure { request_id := i.request_id
         title := i.title
         branch_code := i.branch_code
         start_time := i.start_time
         end_time := i.end_time
         location := i.location
         resources := i.resources
         status := st }

/-- Raw Report payload. -/
structure ReportInput where
  request_id : Option String := none
  event_id : Option String := none
  submitted_by : Option String := none
  summary : String
  attendees_count : Option Int := none
  photos : List String := []
  deriving DecidableEq, Repr

/-- Pydantic validation of a Report payload:
`attendees_count: Optional[int] = Field(default=None, ge=0)`. -/
def parseReport (i : ReportInput) : Option Report := do
  match i.attendees_count with
  | none => pure ()
  | some n => guard (0 ≤ n)
  pure { request_id := i.request_id
         event_id := i.event_id
         submitted_by := i.submitted_by
         summary := i.summary
         attendees_count := i.attendees_count
         photos := i.photos }

/-- Raw Evaluation payload. -/
structure EvaluationInput where
  request_id : Option String := none
  event_id : Option String := none
  score : Rat
  methodology : Option String := none
  comments : Option String := none
  deriving DecidableEq, Repr

/-- Pydantic validation of an Evaluation payload:
`score: float = Field(ge=0, le=100)`. -/
def parseEvaluation (i : EvaluationInput) : Option Evaluation := do
  guard (0 ≤ i.score ∧ i.score ≤ 100)
  pure { request_id := i.request_id
         event_id := i.event_id
         score := i.score
         methodology := i.methodology
         comments := i.comments }

/-- Python truthiness of an `Optional[str]` value: None and the empty
string are falsy, every other string is truthy (used by the handlers
when they build Mongo filters with `if status:` and friends). -/
def strTruthy (o : Option String) : Bool :=
  match o with
  | none => false
  | some v => !v.isEmpty

/-- Normalise an optional-filter argument the way the handlers do: a
falsy value contributes no filter clause. -/
def filterClause (o : Option String) : Option String :=
  if strTruthy o then o else none

/-- One exact-match clause of a Mongo filter: absent clause matches
everything, present clause requires equality. -/
def clauseMatches (clause : Option String) (field : String) : Bool :=
  match clause with
  | none => true
  | some v => field = v

/-- Response of submit_program_request: `{"id": req_id, "status": payload.status}`. -/
structure SubmitResponse where
  id : String
  status : String
  deriving DecidableEq, Repr

/-- Response of the other create endpoints: `{"id": ...}`. -/
structure IdResponse where
  id : String
  deriving DecidableEq, Repr

/-- main.py submit_program_request: validate the payload (FastAPI), then
`create_document("programrequest", payload)` and echo the payload status. -/
def submit_program_request (s : Store) (i : ProgramRequestInput) :
    Store × Except ApiError SubmitResponse :=
  match parseProgramRequest i with
  | none => (s, Except.error ApiError.validationError)
  | some p =>
    let rid := freshId s
    ({ s with programrequest := s.programrequest ++ [(rid, p)],
              nextId := s.nextId + 1 },
     Except.ok ⟨rid, p.status⟩)

/-- Mongo update_one on the programrequest collection with filter
on _id and `$set status`: patch the first record whose key matches;
when no key matches, the store is unchanged (matched_count = 0). -/
def updateRequestStatus (l : List (String × ProgramRequest)) (rid st : String) :
    List (String × ProgramRequest) :=
  match l with
  | [] => []
  | (k, r) :: rest =>
    if k = rid then (k, { r with status := st }) :: rest
    else (k, r) :: updateRequestStatus rest rid st

/-- main.py approve_request: validate the payload, append the approval
record, then update_one on the referenced programrequest setting status
to "approved" when decision == "approved" else "rejected".  No existence
check, no status check: the two writes are unconditional. -/
def approve_request (s : Store) (i : ApprovalInput) :
    Store × Except ApiError IdResponse :=
  match parseApproval i with
  | none => (s, Except.error ApiError.validationError)
  | some p =>
    let aid := freshId s
    let s1 : Store :=
      { s with approval := s.approval ++ [(aid, p)], nextId := s.nextId + 1 }
    let newStatus := if p.decision = "approved" then "approved" else "rejected"
    let s2 : Store :=
      { s1 with programrequest :=
          updateRequestStatus s1.programrequest p.request_id newStatus }
    (s2, Except.ok ⟨aid⟩)

/-- main.py create_event: validate the payload, then
`create_document("event", payload)` — no check on the time window, no
check on the referenced request. -/
def create_event (s : Store) (i : EventInput) :
    Store × Except ApiError IdResponse :=
  match parseEvent i with
  | none => (s, Except.error ApiError.validationError)
  | some e =>
    let eid := freshId s
    ({ s with event := s.event ++ [(eid, e)], nextId := s.nextId + 1 },
     Except.ok ⟨eid⟩)

/-- main.py submit_report: validate the payload, then
`create_document("report", payload)` — no cross-reference check. -/
def submit_report (s : Store) (i : ReportInput) :
    Store × Except ApiError IdResponse :=
  match parseReport i with
  | none => (s, Except.error ApiError.validationError)
  | some r =>
    let rid := freshId s
    ({ s with report := s.report ++ [(rid, r)], nextId := s.nextId + 1 },
     Except.ok ⟨rid⟩)

/-- main.py submit_evaluation: validate the payload, then
`create_document("evaluation", payload)` — no cross-reference check. -/
def submit_evaluation (s : Store) (i : EvaluationInput) :
    Store × Except ApiError IdResponse :=
  match parseEvaluation i with
  | none => (s, Except.error ApiError.validationError)
  | some e =>
    let eid := freshId s
    ({ s with evaluation := s.evaluation ++ [(eid, e)], nextId := s.nextId + 1 },
     Except.ok ⟨eid⟩)

/-- main.py list_program_requests: build q from the truthy filters and
return the matching records (get_documents). -/
def list_program_requests (s : Store)
    (status branch_code : Option String) : List ProgramRequest :=
  let qStatus := filterClause status
  let qBranch := filterClause branch_code
  (s.programrequest.filter fun kr =>
    clauseMatches qStatus kr.2.status &&
    clauseMatches qBranch kr.2.branch_code).map Prod.snd

/-- main.py list_events: build q from the truthy filters and return the
matching records. -/
def list_events (s : Store)
    (branch_code status : Option String) : List Event :=
  let qBranch := filterClause branch_code
  let qStatus := filterClause status
  (s.event.filter fun ke =>
    clauseMatches qBranch ke.2.branch_code &&
    clauseMatches qStatus ke.2.status).map Prod.snd

/-- main.py list_resources: build q from the truthy filters
(branch_code, type) and return the matching records. -/
def list_resources (s : Store)
    (branch_code type : Option String) : List Resource :=
  let qBranch := filterClause branch_code
  let qType := filterClause type
  (s.resource.filter fun kr =>
    clauseMatches qBranch (kr.2.branch_code.getD "") &&
    clauseMatches qType kr.2.type).map Prod.snd

/-- main.py list_notifications: build q from the truthy filters
(user_email, branch_code) and return the matching records. -/
def list_notifications (s : Store)
    (user_email branch_code : Option String) : List Notification :=
  let qEmail := filterClause user_email
  let qBranch := filterClause branch_code
  (s.notification.filter fun kn =>
    clauseMatches qEmail (kn.2.user_email.getD "") &&
    clauseMatches qBranch (kn.2.branch_code.getD "")).map Prod.snd

/-- Lookup of a record by id within a programrequest collection (the
first record whose key matches, like a Mongo find on _id). -/
def findRequest (l : List (String × ProgramRequest)) (rid : String) :
    Option ProgramRequest :=
  match l with
  | [] => none
  | (k, r) :: rest => if k = rid then some r else findRequest rest rid

/-- Lookup of a programrequest by id (a store read). -/
def getRequest (s : Store) (rid : String) : Option ProgramRequest :=
  findRequest s.programrequest rid

/-- Modelled from the spec, section 4.1 (the source defines no
transition relation): allowed_successors(submitted) =
[under_review, approved, rejected]; allowed_successors(under_review) =
[approved, rejected]; approved and rejected have no successors. -/
def allowed_successors (st : String) : List String :=
  if st = "submitted" then ["under_review", "approved", "rejected"]
  else if st = "under_review" then ["approved", "rejected"]
  else []

/-- Modelled from the spec, section 4.1:
can_transition(current, next) = next in allowed_successors(current). -/
def can_transition (current next : String) : Bool :=
  (allowed_successors current).contains next

/-- A status is terminal when it has no allowed successor. -/
def terminalStatus (st : String) : Bool :=
  st = "approved" ∨ st = "rejected"

/-! Helper lemmas about the embedded operations. -/

/-- update_one patches exactly the record that a lookup on the same id
finds: after updateRequestStatus, that record reads back with the new
status and all other fields intact. -/
theorem findRequest_updateRequestStatus (l : List (String × ProgramRequest))
    (rid st : String) (r : ProgramRequest) (h : findRequest l rid = some r) :
    findRequest (updateRequestStatus l rid st) rid =
      some { r with status := st } := by
  induction l with
  | nil => simp [findRequest] at h
  | cons a tl ih =>
    obtain ⟨k0, r0⟩ := a
    by_cases hk : k0 = rid
    · simp [findRequest, hk] at h
      simp [updateRequestStatus, findRequest, hk, h]
    · simp [findRequest, updateRequestStatus, hk] at h ⊢
      exact ih h

/-- A budget list holding a negative amount fails pydantic validation. -/
theorem parseBudget_neg (l : List BudgetItemInput)
    (h : ∃ b ∈ l, b.amount < 0) : parseBudget l = none := by
  induction l with
  | nil => simp at h
  | cons a tl ih =>
    rcases h with ⟨b, hb, hneg⟩
    rcases List.mem_cons.mp hb with h1 | h1
    · subst h1
      simp [parseBudget, parseBudgetItem, not_le.mpr hneg]
    · simp [parseBudget, ih ⟨b, h1, hneg⟩]

/-- A ProgramRequest payload that validates carries as status exactly
the supplied status when one is given, else the default "submitted". -/
theorem parseProgramRequest_status (i : ProgramRequestInput)
    (p : ProgramRequest) (h : parseProgramRequest i = some p) :
    p.status = i.status.getD "submitted" := by
  unfold parseProgramRequest at h
  split at h
  · split at h
    · simp at h
    · split at h
      · obtain rfl := Option.some.inj h
        rfl
      · simp at h
  · simp at h

/-- When the budget list fails validation the whole payload fails. -/
theorem parseProgramRequest_none_of_budget (i : ProgramRequestInput)
    (hb : parseBudget i.budget = none) : parseProgramRequest i = none := by
  unfold parseProgramRequest
  rw [hb]
  split <;> rfl

/-- A successfully validated submission appends exactly one record and
echoes the status of the validated payload. -/
theorem submit_program_request_ok (s : Store) (i : ProgramRequestInput)
    (p : ProgramRequest) (h : parseProgramRequest i = some p) :
    submit_program_request s i =
      ({ s with programrequest := s.programrequest ++ [(freshId s, p)],
                nextId := s.nextId + 1 },
       Except.ok ⟨freshId s, p.status⟩) := by
  unfold submit_program_request
  rw [h]

/-! Claim theorems. -/

/-- C1: the claim says a RecordApproval on a request whose status is
terminal ("approved" or "rejected") fails with InvalidTransition and
leaves the status unchanged.  The code performs no status check: on a
request already "approved", a second approval with decision "rejected"
succeeds and rewrites the status to "rejected", exhibiting a transition
out of a terminal state. -/
theorem approve_request_overwrites_terminal_status :
    terminalStatus "approved" = true ∧
    approve_request
      { programrequest := [("0",
          { branch_code := "RU-01", program_title := "Fair",
            program_type := "student_activity", status := "approved" })],
        nextId := 1 }
      { request_id := "0", approved_by := "admin", decision := "rejected" } =
    ({ programrequest := [("0",
          { branch_code := "RU-01", program_title := "Fair",
            program_type := "student_activity", status := "rejected" })],
       approval := [("1",
          { request_id := "0", approved_by := "admin",
            decision := "rejected" })],
       nextId := 2 },
     Except.ok ⟨"1"⟩) :=
  ⟨rfl, rfl⟩

/-- C4: the claim says RecordApproval is atomic (approval persisted iff
the request status is updated).  On a request_id that matches nothing,
the code persists the Approval record, updates no request, and still
reports success: a partial write. -/
theorem approve_request_not_atomic :
    (approve_request {}
      { request_id := "77", approved_by := "admin",
        decision := "approved" }).1.approval =
      [("0", { request_id := "77", approved_by := "admin",
               decision := "approved" })] ∧
    getRequest (approve_request {}
      { request_id := "77", approved_by := "admin",
        decision := "approved" }).1 "77" = none ∧
    (approve_request {}
      { request_id := "77", approved_by := "admin",
        decision := "approved" }).2 = Except.ok ⟨"0"⟩ :=
  ⟨rfl, rfl, rfl⟩

/-- C5: the claim says RecordApproval on a nonexistent request_id fails
with NotFound and persists nothing.  The code never checks existence:
it persists the Approval, leaves the programrequest collection as it
was, and returns success. -/
theorem approve_request_missing_notfound :
    (approve_request
      { programrequest := [("0",
          { branch_code := "B", program_title := "T",
            program_type := "volunteering", status := "submitted" })],
        nextId := 1 }
      { request_id := "readme", approved_by := "a",
        decision := "rejected" }).2 = Except.ok ⟨"1"⟩ ∧
    (approve_request
      { programrequest := [("0",
          { branch_code := "B", program_title := "T",
            program_type := "volunteering", status := "submitted" })],
        nextId := 1 }
      { request_id := "readme", approved_by := "a",
        decision := "rejected" }).1.approval =
      [("1", { request_id := "readme", approved_by := "a",
               decision := "rejected" })] ∧
    (approve_request
      { programrequest := [("0",
          { branch_code := "B", program_title := "T",
            program_type := "volunteering", status := "submitted" })],
        nextId := 1 }
      { request_id := "readme", approved_by := "a",
        decision := "rejected" }).1.programrequest =
      [("0", { branch_code := "B", program_title := "T",
               program_type := "volunteering", status := "submitted" })] :=
  ⟨rfl, rfl, rfl⟩

/-- C6: the claim says ScheduleEvent referencing an unapproved request
fails with PreconditionFailed, and referencing a nonexistent request
fails with NotFound, creating no Event either way.  The code never
reads the referenced request: both calls succeed and persist the
Event. -/
theorem create_event_ignores_request_status :
    getRequest
      { programrequest := [("0",
          { branch_code := "B", program_title := "T",
            program_type := "volunteering", status := "submitted" })],
        nextId := 1 } "0" =
      some { branch_code := "B", program_title := "T",
             program_type := "volunteering", status := "submitted" } ∧
    create_event
      { programrequest := [("0",
          { branch_code := "B", program_title := "T",
            program_type := "volunteering", status := "submitted" })],
        nextId := 1 }
      { request_id := some "0", title := "E", branch_code := "B",
        start_time := 0, end_time := 10 } =
      ({ programrequest := [("0",
           { branch_code := "B", program_title := "T",
             program_type := "volunteering", status := "submitted" })],
         event := [("1",
           { request_id := some "0", title := "E", branch_code := "B",
             start_time := 0, end_time := 10 })],
         nextId := 2 },
       Except.ok ⟨"1"⟩) ∧
    getRequest ({ nextId := 4 } : Store) "99" = none ∧
    create_event ({ nextId := 4 } : Store)
      { request_id := some "99", title := "E", branch_code := "B",
        start_time := 0, end_time := 10 } =
      ({ event := [("4",
           { request_id := some "99", title := "E", branch_code := "B",
             start_time := 0, end_time := 10 })],
         nextId := 5 },
       Except.ok ⟨"4"⟩) :=
  ⟨rfl, rfl, rfl, rfl⟩

/-- C7: the claim says ScheduleEvent with start_time >= end_time fails
with ValidationError and that persisted events satisfy
start_time < end_time.  Neither the Event schema nor the handler
relates the two times: an event with start_time = end_time is accepted
and persisted. -/
theorem create_event_accepts_empty_time_window :
    create_event {}
      { title := "E", branch_code := "B",
        start_time := 10, end_time := 10 } =
      ({ event := [("0",
           { title := "E", branch_code := "B",
             start_time := 10, end_time := 10 })],
         nextId := 1 },
       Except.ok ⟨"0"⟩) ∧
    ¬ ((10 : Int) < 10) :=
  ⟨rfl, by decide⟩

/-- C8: the claim says SubmitReport and SubmitEvaluation with both ids
given fail with InconsistentReference when the referenced event carries
a different request_id, persisting nothing.  The code performs no
cross-check: with an event whose request_id is "1" and a supplied
request_id "2", both submissions succeed and persist. -/
theorem submit_report_evaluation_no_crosscheck :
    submit_report
      { event := [("5",
          { request_id := some "1", title := "E", branch_code := "B",
            start_time := 0, end_time := 1 })],
        nextId := 6 }
      { request_id := some "2", event_id := some "5", summary := "ok" } =
      ({ event := [("5",
           { request_id := some "1", title := "E", branch_code := "B",
             start_time := 0, end_time := 1 })],
         report := [("6",
           { request_id := some "2", event_id := some "5",
             summary := "ok" })],
         nextId := 7 },
       Except.ok ⟨"6"⟩) ∧
    submit_evaluation
      { event := [("5",
          { request_id := some "1", title := "E", branch_code := "B",
            start_time := 0, end_time := 1 })],
        nextId := 6 }
      { request_id := some "2", event_id := some "5", score := 50 } =
      ({ event := [("5",
           { request_id := some "1", title := "E", branch_code := "B",
             start_time := 0, end_time := 1 })],
         evaluation := [("6",
           { request_id := some "2", event_id := some "5",
             score := 50 })],
         nextId := 7 },
       Except.ok ⟨"6"⟩) ∧
    some "1" ≠ some "2" :=
  ⟨rfl, rfl, by decide⟩

/-- C2 counterexample: the claim says the created request (and the
returned status) is "submitted" regardless of any status supplied in
the input.  A payload supplying status "approved" passes the Literal
validation, is stored verbatim, and the handler echoes
payload.status: both read "approved", not "submitted". -/
theorem submit_program_request_keeps_supplied_status :
    submit_program_request {}
      { branch_code := "RU-01", program_title := "Fair",
        program_type := "student_activity", status := some "approved" } =
      ({ programrequest := [("0",
           { branch_code := "RU-01", program_title := "Fair",
             program_type := "student_activity", status := "approved" })],
         nextId := 1 },
       Except.ok ⟨"0", "approved"⟩) ∧
    "approved" ≠ "submitted" :=
  ⟨rfl, by decide⟩

/-- C2 amended: a validated submission stores the payload verbatim and
echoes its status; that status equals the supplied one when present
(any of the four enum values is accepted) and defaults to "submitted"
only when the input omits status. -/
theorem submit_program_request_echoes_status (s : Store)
    (i : ProgramRequestInput) (p : ProgramRequest)
    (h : parseProgramRequest i = some p) :
    submit_program_request s i =
      ({ s with programrequest := s.programrequest ++ [(freshId s, p)],
                nextId := s.nextId + 1 },
       Except.ok ⟨freshId s, i.status.getD "submitted"⟩) ∧
    p.status = i.status.getD "submitted" := by
  have hs := parseProgramRequest_status i p h
  refine ⟨?_, hs⟩
  rw [submit_program_request_ok s i p h, hs]

/-- C2 amended, witness: the amended theorem applied to a concrete
payload that supplies status "under_review". -/
theorem submit_program_request_echoes_status_witness :
    parseProgramRequest
      { branch_code := "B", program_title := "T",
        program_type := "volunteering", status := some "under_review" } =
      some { branch_code := "B", program_title := "T",
             program_type := "volunteering", status := "under_review" } ∧
    (submit_program_request {}
      { branch_code := "B", program_title := "T",
        program_type := "volunteering", status := some "under_review" } =
      ({ programrequest := [("0",
           { branch_code := "B", program_title := "T",
             program_type := "volunteering",
             status := "under_review" })],
         nextId := 1 },
       Except.ok ⟨"0", "under_review"⟩) ∧
     ProgramRequest.status
       { branch_code := "B", program_title := "T",
         program_type := "volunteering", status := "under_review" } =
       "under_review") :=
  ⟨rfl, submit_program_request_echoes_status {} _ _ rfl⟩

/-- C3: on an existing request whose current status permits the
transition, RecordApproval succeeds and the request reads back with
status equal to the decision: "approved" for decision "approved",
"rejected" for decision "rejected". -/
theorem approve_request_sets_decided_status (s : Store) (i : ApprovalInput)
    (r : ProgramRequest)
    (hd : decisions.contains i.decision = true)
    (hr : getRequest s i.request_id = some r)
    (ht : can_transition r.status i.decision = true) :
    (approve_request s i).2 = Except.ok ⟨freshId s⟩ ∧
    getRequest (approve_request s i).1 i.request_id =
      some { r with status := i.decision } := by
  have hdec : i.decision = "approved" ∨ i.decision = "rejected" := by
    simpa [decisions] using hd
  have hparse : parseApproval i =
      some ⟨i.request_id, i.approved_by, i.decision, i.notes⟩ := by
    unfold parseApproval
    rw [hd]
    rfl
  unfold approve_request
  rw [hparse]
  refine ⟨rfl, ?_⟩
  show findRequest (updateRequestStatus s.programrequest i.request_id
      (if i.decision = "approved" then "approved" else "rejected"))
      i.request_id = some { r with status := i.decision }
  have hnew : (if i.decision = "approved" then "approved" else "rejected")
      = i.decision := by
    rcases hdec with h | h <;> simp [h]
  rw [hnew]
  exact findRequest_updateRequestStatus s.programrequest i.request_id
    i.decision r hr

/-- C3 witness: the theorem applied to a store holding one submitted
request and an approval with decision "approved". -/
theorem approve_request_sets_decided_status_witness :
    decisions.contains "approved" = true ∧
    getRequest
      { programrequest := [("0",
          { branch_code := "B", program_title := "T",
            program_type := "volunteering", status := "submitted" })],
        nextId := 1 } "0" =
      some { branch_code := "B", program_title := "T",
             program_type := "volunteering", status := "submitted" } ∧
    can_transition "submitted" "approved" = true ∧
    ((approve_request
      { programrequest := [("0",
          { branch_code := "B", program_title := "T",
            program_type := "volunteering", status := "submitted" })],
        nextId := 1 }
      { request_id := "0", approved_by := "boss",
        decision := "approved" }).2 = Except.ok ⟨"1"⟩ ∧
     getRequest (approve_request
      { programrequest := [("0",
          { branch_code := "B", program_title := "T",
            program_type := "volunteering", status := "submitted" })],
        nextId := 1 }
      { request_id := "0", approved_by := "boss",
        decision := "approved" }).1 "0" =
      some { branch_code := "B", program_title := "T",
             program_type := "volunteering", status := "approved" }) :=
  ⟨rfl, rfl, rfl,
   approve_request_sets_decided_status
     { programrequest := [("0",
         { branch_code := "B", program_title := "T",
           program_type := "volunteering", status := "submitted" })],
       nextId := 1 }
     { request_id := "0", approved_by := "boss", decision := "approved" }
     { branch_code := "B", program_title := "T",
       program_type := "volunteering", status := "submitted" }
     rfl rfl rfl⟩

/-- C9: a SubmitRequest payload containing a budget item with a
negative amount is rejected with ValidationError by the pydantic
constraint amount >= 0, and the store is left unchanged: no
ProgramRequest record is persisted. -/
theorem submit_program_request_rejects_negative_budget (s : Store)
    (i : ProgramRequestInput) (h : ∃ b ∈ i.budget, b.amount < 0) :
    submit_program_request s i =
      (s, Except.error ApiError.validationError) := by
  have hp : parseProgramRequest i = none :=
    parseProgramRequest_none_of_budget i (parseBudget_neg i.budget h)
  unfold submit_program_request
  rw [hp]

/-- C9 witness: the theorem applied to a payload whose only budget item
has amount -5. -/
theorem submit_program_request_rejects_negative_budget_witness :
    (∃ b ∈ [({ name := "venue", amount := -5 } : BudgetItemInput)],
      b.amount < 0) ∧
    submit_program_request {}
      { branch_code := "B", program_title := "T",
        program_type := "volunteering",
        budget := [{ name := "venue", amount := -5 }] } =
      ({}, Except.error ApiError.validationError) :=
  ⟨by decide,
   submit_program_request_rejects_negative_budget {}
     { branch_code := "B", program_title := "T",
       program_type := "volunteering",
       budget := [{ name := "venue", amount := -5 }] }
     (by decide)⟩

/-- C10: for every list operation with optional string filters
(list_program_requests, list_events, list_resources,
list_notifications), supplying the empty string for a filter is
identical to omitting it, because the handlers add a filter clause only
for truthy values; and with every filter omitted the operation returns
the whole collection. -/
theorem list_empty_string_filter_is_omitted (s : Store)
    (x : Option String) :
    list_program_requests s (some "") x = list_program_requests s none x ∧
    list_program_requests s x (some "") = list_program_requests s x none ∧
    list_events s (some "") x = list_events s none x ∧
    list_events s x (some "") = list_events s x none ∧
    list_resources s (some "") x = list_resources s none x ∧
    list_resources s x (some "") = list_resources s x none ∧
    list_notifications s (some "") x = list_notifications s none x ∧
    list_notifications s x (some "") = list_notifications s x none ∧
    list_program_requests s none none = s.programrequest.map Prod.snd ∧
    list_events s none none = s.event.map Prod.snd ∧
    list_resources s none none = s.resource.map Prod.snd ∧
    list_notifications s none none = s.notification.map Prod.snd := by
  refine ⟨rfl, rfl, rfl, rfl, rfl, rfl, rfl, rfl, ?_, ?_, ?_, ?_⟩ <;>
    simp [list_program_requests, list_events, list_resources,
      list_notifications, filterClause, clauseMatches, strTruthy]
